import Mathlib

/-!
Shallow embedding of `src/track/track_gps_l2cm.c` (piksi_firmware, GPS L2CM
tracker) together with the handover routine and the two settings parsers.

Modelling conventions:
* C `float`/`double` values are modelled as exact rationals (ℚ).
* C signed integer arithmetic is modelled on ℤ; C integer division
  (truncation toward zero) is `Int.tdiv`.  `u32` counters wrap mod 2^32.
* The libswiftnav primitives (`aided_tl_*`, `lock_detect_*`, `cn0_est*`,
  `alias_detect_second`) and the tracker/hardware API are not part of this
  repository's sources; they are supplied as components of an `Env`
  record, so every theorem below holds for an arbitrary implementation of
  those collaborators.  Hardware side effects (`tracker_retune`,
  `tracker_ambiguity_unknown`, logging, `tracker_bit_sync_update`,
  `tracker_correlations_send`) are recorded as an ordered event list.
-/

namespace L2CM

/-- One correlator output (`corr_t`): in-phase and quadrature accumulators,
`s32` in the source, modelled on ℤ. -/
structure Corr where
  I : ℤ
  Q : ℤ
  deriving DecidableEq, Repr

/-- The EPL triplet `corr_t cs[3]`: `c0` = early, `c1` = prompt, `c2` = late. -/
structure Corr3 where
  c0 : Corr
  c1 : Corr
  c2 : Corr
  deriving DecidableEq, Repr

/-- Component-wise accumulation `data->cs[i].I += cs[i].I; … .Q += cs[i].Q`
(the unrolled `for` loop of the long cycle). -/
def addCorr3 (a b : Corr3) : Corr3 :=
  { c0 := ⟨a.c0.I + b.c0.I, a.c0.Q + b.c0.Q⟩
    c1 := ⟨a.c1.I + b.c1.I, a.c1.Q + b.c1.Q⟩
    c2 := ⟨a.c2.I + b.c2.I, a.c2.Q + b.c2.Q⟩ }

/-- The reversal `cs2[i] = cs[2-i]` feeding `aided_tl_update`. -/
def revCorr3 (a : Corr3) : Corr3 :=
  { c0 := a.c2, c1 := a.c1, c2 := a.c0 }

/-- Phase lock detector state (`lock_detect_t`): the two outputs consumed by
the tracker plus internal smoother/counter state. -/
structure LockDetect where
  lpfi : ℚ
  lpfq : ℚ
  outo : Bool
  outp : Bool
  pcount1 : ℕ
  pcount2 : ℕ
  deriving DecidableEq, Repr

/-- Alias (half-cycle) detector state (`alias_detect_t`): the stored
first-sample `(first_I, first_Q)` plus interval bookkeeping. -/
structure AliasDetect where
  acc_len : ℕ
  dt : ℚ
  dot : ℚ
  cross : ℚ
  fl_count : ℕ
  first_I : ℚ
  first_Q : ℚ
  deriving DecidableEq, Repr

/-- The slice of the aided tracking-loop state (`aided_tl_state_t`) that
`tracker_gps_l2cm_update` reads or writes directly: `carr_freq`,
`code_freq`, and the carrier filter output `carr_filt.y`. -/
structure AidedTl where
  code_freq : ℚ
  carr_freq : ℚ
  carr_filt_y : ℚ
  deriving DecidableEq, Repr

/-- C/N0 estimator internal state (`cn0_est_state_t`), opaque to the
tracker; carried through `Env.cn0_est_update`. -/
structure Cn0Est where
  log_bw : ℚ
  b : ℚ
  a2 : ℚ
  I_prev_abs : ℚ
  nsr : ℚ
  deriving DecidableEq, Repr

/-- `tracker_common_data_t`: the shared per-channel tracking state. -/
structure CommonData where
  sample_count : ℤ
  code_phase_early : ℚ
  carrier_phase : ℚ
  TOW_ms : ℤ
  update_count : ℕ
  carrier_freq : ℚ
  code_phase_rate : ℚ
  cn0 : ℚ
  cn0_above_drop_thres_count : ℕ
  cn0_below_use_thres_count : ℕ
  ld_opti_locked_count : ℕ
  ld_pess_unlocked_count : ℕ
  mode_change_count : ℕ
  deriving DecidableEq, Repr

/-- `gps_l2cm_tracker_data_t`: the private tracker state of one channel. -/
structure TrackerData where
  tl_state : AidedTl
  cs : Corr3
  cn0_est : Cn0Est
  int_ms : ℕ
  short_cycle : Bool
  stage : ℕ
  alias_detect : AliasDetect
  lock_detect : LockDetect
  deriving DecidableEq, Repr

/-- The module-level configuration read by `tracker_gps_l2cm_update`:
`use_alias_detection`, `track_cn0_use_thres`, `track_cn0_drop_thres`. -/
structure Config where
  use_alias_detection : Bool
  track_cn0_use_thres : ℚ
  track_cn0_drop_thres : ℚ
  deriving DecidableEq, Repr

/-- Values produced by the hardware read `tracker_correlations_read` during
one update call: the correlation triplet and the sampled phase state. -/
structure Inputs where
  cs : Corr3
  sample_count : ℤ
  code_phase_early : ℚ
  carrier_phase : ℚ
  deriving DecidableEq, Repr

/-- `struct loop_params`: the parsed loop-filter configuration.
`coherent_ms` is a `u8` in the source. -/
structure LoopParams where
  code_bw : ℚ
  code_zeta : ℚ
  code_k : ℚ
  carr_to_code : ℚ
  carr_bw : ℚ
  carr_zeta : ℚ
  carr_k : ℚ
  carr_fll_aid_gain : ℚ
  coherent_ms : ℕ
  deriving DecidableEq, Repr

/-- `struct lock_detect_params`: the parsed lock-detector configuration
(`k1 k2 : float`, `lp lo : u16`). -/
structure LockDetectParams where
  k1 : ℚ
  k2 : ℚ
  lp : ℕ
  lo : ℕ
  deriving DecidableEq, Repr

/-- Side effects of one update/init call, in program order. -/
inductive Event where
  | retune (carrier_freq code_phase_rate : ℚ) (rollover : ℤ)
  | ambiguityUnknown
  | bitSyncUpdate (int_ms : ℕ) (bit_integrate : ℤ)
  | correlationsSend (cs : Corr3)
  | logWarnFalsePhaseLock
  | logInfoPllStress
  | logInfoSynced
  deriving DecidableEq, Repr

/-- Modelled from the spec: the external collaborators of the tracker —
the libswiftnav loop filter, lock detector, C/N0 estimator and alias
detector update/init routines, the TOW updater and the bit-alignment
query — whose implementations live outside this repository.  Each theorem
quantifies over an arbitrary `Env`. -/
structure Env where
  tow_update : ℤ → ℕ → ℤ
  cn0_est_update : Cn0Est → ℚ → ℚ → ℚ × Cn0Est
  lock_detect_update : LockDetect → ℚ → ℚ → ℕ → LockDetect
  aided_tl_update : AidedTl → Corr3 → AidedTl
  alias_detect_second : AliasDetect → ℤ → ℤ → ℚ × AliasDetect
  bit_aligned : Bool
  aided_tl_init : ℚ → ℚ → LoopParams → ℚ → AidedTl
  cn0_est_init : ℚ → ℚ → ℚ → ℚ → Cn0Est
  lock_detect_init : ℚ → ℚ → ℕ → ℕ → LockDetect
  alias_detect_init : ℕ → ℚ → AliasDetect

/-- `GPS_CA_CHIPPING_RATE` = 1.023e6 chips/s (libswiftnav constant). -/
def GPS_CA_CHIPPING_RATE : ℚ := 1023000

/-- `GPS_L1_HZ` = 1.57542e9 Hz (libswiftnav constant). -/
def GPS_L1_HZ : ℚ := 1575420000

/-- `GPS_L2_HZ` = 1.2276e9 Hz (libswiftnav constant). -/
def GPS_L2_HZ : ℚ := 1227600000

/-- `L2C_COHERENT_INTEGRATION_TIME_MS` = 20. -/
def L2C_COHERENT_INTEGRATION_TIME_MS : ℕ := 20

/-- `L2C_ALIAS_DETECT_INTERVAL_MS` = 500. -/
def L2C_ALIAS_DETECT_INTERVAL_MS : ℕ := 500

/-- `CN0_EST_LPF_CUTOFF` = 5. -/
def CN0_EST_LPF_CUTOFF : ℚ := 5

/-- 2^32, the modulus of `u32` arithmetic. -/
def u32Mod : ℕ := 4294967296

/-- C truncation of a rational toward zero, as in a `(s32)` cast of a
float expression. -/
def ratTrunc (q : ℚ) : ℤ := Int.tdiv q.num (q.den : ℤ)

/-- Modelled from the spec: libswiftnav `alias_detect_first` records the
1 ms prompt sample: it stores `(I, Q)` into `(first_I, first_Q)`. -/
def alias_detect_first (a : AliasDetect) (I Q : ℚ) : AliasDetect :=
  { a with first_I := I, first_Q := Q }

/-- The C/N0 estimator block of the long cycle (source lines 318–331):
updates `common->cn0` from the prompt correlation scaled by `1/int_ms`
(`s32` divisions), records `cn0_above_drop_thres_count` above the drop
threshold, and below the use threshold signals an ambiguity reset and
records `cn0_below_use_thres_count`. -/
def cn0_update_step (cfg : Config) (env : Env)
    (common0 : CommonData) (data0 : TrackerData) :
    CommonData × TrackerData × List Event :=
  let cs := data0.cs
  let r := env.cn0_est_update data0.cn0_est
    ((Int.tdiv cs.c1.I (data0.int_ms : ℤ) : ℤ) : ℚ)
    ((Int.tdiv cs.c1.Q (data0.int_ms : ℤ) : ℤ) : ℚ)
  let common := { common0 with cn0 := r.1 }
  let data := { data0 with cn0_est := r.2 }
  let common :=
    if common.cn0 > cfg.track_cn0_drop_thres then
      { common with cn0_above_drop_thres_count := common.update_count }
    else common
  if common.cn0 < cfg.track_cn0_use_thres then
    ({ common with cn0_below_use_thres_count := common.update_count }, data,
      [Event.ambiguityUnknown])
  else
    (common, data, [])

/-- The PLL lock detector block of the long cycle (source lines 333–347):
runs `lock_detect_update` on the prompt correlation, records
`ld_opti_locked_count` while `outo` holds and `ld_pess_unlocked_count`
while `outp` is clear, and on an `outp` true→false transition logs "PLL
stress" and signals an ambiguity reset. -/
def lock_detect_step (env : Env)
    (common0 : CommonData) (data0 : TrackerData) :
    CommonData × TrackerData × List Event :=
  let cs := data0.cs
  let last_outp := data0.lock_detect.outp
  let data := { data0 with
    lock_detect :=
      env.lock_detect_update data0.lock_detect (cs.c1.I : ℚ) (cs.c1.Q : ℚ)
        data0.int_ms }
  let common :=
    if data.lock_detect.outo then
      { common0 with ld_opti_locked_count := common0.update_count }
    else common0
  let common :=
    if !data.lock_detect.outp then
      { common with ld_pess_unlocked_count := common.update_count }
    else common
  if last_outp && !data.lock_detect.outp then
    (common, data, [Event.logInfoPllStress, Event.ambiguityUnknown])
  else
    (common, data, [])

/-- The loop filter block of the long cycle (source lines 354–363): feeds
the reversed triplet to `aided_tl_update` and publishes the resulting
carrier frequency and code phase rate into the common state. -/
def loop_filter_step (env : Env)
    (common0 : CommonData) (data0 : TrackerData) :
    CommonData × TrackerData :=
  let data := { data0 with
    tl_state := env.aided_tl_update data0.tl_state (revCorr3 data0.cs) }
  ({ common0 with
      carrier_freq := data.tl_state.carr_freq
      code_phase_rate := data.tl_state.code_freq + GPS_CA_CHIPPING_RATE },
    data)

/-- The alias detection block of the long cycle (source lines 367–384):
with alias detection enabled and at least optimistic lock, forms the
scaled remainder sample, obtains the frequency-error estimate from
`alias_detect_second`, and past the `250 / int_ms` threshold (an integer
division) logs a false-lock warning when `outp` is set, signals an
ambiguity reset, records `mode_change_count`, and feeds the error
directly into `tl_state.carr_freq` and `tl_state.carr_filt.y`. -/
def alias_detect_step (cfg : Config) (env : Env)
    (common0 : CommonData) (data0 : TrackerData) :
    CommonData × TrackerData × List Event :=
  if cfg.use_alias_detection &&
      (data0.lock_detect.outp || data0.lock_detect.outo) then
    let cs := data0.cs
    let I : ℤ :=
      ratTrunc (((cs.c1.I : ℚ) - data0.alias_detect.first_I) /
        ((data0.int_ms : ℚ) - 1))
    let Q : ℤ :=
      ratTrunc (((cs.c1.Q : ℚ) - data0.alias_detect.first_Q) /
        ((data0.int_ms : ℚ) - 1))
    let s := env.alias_detect_second data0.alias_detect I Q
    let err := s.1
    let data := { data0 with alias_detect := s.2 }
    -- 250 / data->int_ms is an integer division
    if |err| > ((Int.tdiv 250 (data.int_ms : ℤ) : ℤ) : ℚ) then
      let tl := { data.tl_state with
        carr_freq := data.tl_state.carr_freq + err }
      let tl := { tl with carr_filt_y := tl.carr_freq }
      ({ common0 with mode_change_count := common0.update_count },
        { data with tl_state := tl },
        (if data.lock_detect.outp then [Event.logWarnFalsePhaseLock] else [])
          ++ [Event.ambiguityUnknown])
    else (common0, data, [])
  else (common0, data0, [])

/-- The sync announcement block of the long cycle (source lines 386–395):
with optimistic lock and nav-bit alignment, logs "synced" and records
`mode_change_count`. -/
def sync_step (env : Env) (common0 : CommonData) (data0 : TrackerData) :
    CommonData × List Event :=
  if data0.lock_detect.outo && env.bit_aligned then
    ({ common0 with mode_change_count := common0.update_count },
      [Event.logInfoSynced])
  else (common0, [])

/-- The tail of `tracker_gps_l2cm_update` below the short-cycle early
return (source lines 312–400): bumps `update_count`, updates bit sync,
then runs the C/N0, lock detector, loop filter, alias detector and sync
blocks in program order, and issues the final retune with rollover
parameter `int_ms - 1`. -/
def tracker_gps_l2cm_update_long (cfg : Config) (env : Env)
    (common0 : CommonData) (data0 : TrackerData) :
    CommonData × TrackerData × List Event :=
  let common := { common0 with
    update_count := (common0.update_count + data0.int_ms) % u32Mod }
  let cs := data0.cs
  let s1 := cn0_update_step cfg env common data0
  let s2 := lock_detect_step env s1.1 s1.2.1
  let s3 := loop_filter_step env s2.1 s2.2.1
  let s4 := alias_detect_step cfg env s3.1 s3.2
  let s5 := sync_step env s4.1 s4.2.1
  (s5.1, s4.2.1,
    [Event.bitSyncUpdate data0.int_ms cs.c1.I] ++ s1.2.2 ++ s2.2.2
      ++ [Event.correlationsSend cs] ++ s4.2.2 ++ s5.2
      ++ [Event.retune s5.1.carrier_freq s5.1.code_phase_rate
            ((data0.int_ms : ℤ) - 1)])

/-- `tracker_gps_l2cm_update`: one update call.  Reads the correlations
(into `data->cs` on a short cycle, accumulating on a long one), updates
TOW, flips `short_cycle`, and either issues the zero-rollover flush retune
(short cycle) or runs `tracker_gps_l2cm_update_long`.  Returns the new
shared state, the new private state, and the ordered side effects. -/
def tracker_gps_l2cm_update (cfg : Config) (env : Env) (inp : Inputs)
    (common0 : CommonData) (data0 : TrackerData) :
    CommonData × TrackerData × List Event :=
  -- tracker_correlations_read writes sample_count / code_phase_early /
  -- carrier_phase through out-pointers on both cycles
  let common := { common0 with
    sample_count := inp.sample_count
    code_phase_early := inp.code_phase_early
    carrier_phase := inp.carrier_phase }
  let data :=
    if data0.short_cycle then
      { data0 with
        cs := inp.cs
        alias_detect :=
          alias_detect_first data0.alias_detect (inp.cs.c1.I : ℚ) (inp.cs.c1.Q : ℚ) }
    else
      { data0 with cs := addCorr3 data0.cs inp.cs }
  let int_ms_tow : ℕ := if data.short_cycle then 1 else data.int_ms - 1
  let common := { common with
    TOW_ms := env.tow_update common.TOW_ms int_ms_tow }
  let short_cycle := data.short_cycle
  let data := { data with short_cycle := !data.short_cycle }
  if short_cycle then
    (common, data,
      [Event.retune common.carrier_freq common.code_phase_rate 0])
  else
    tracker_gps_l2cm_update_long cfg env common data

/-- `tracker_gps_l2cm_init`: zeroes the private state, signals an ambiguity
reset, and initialises the filter/detector components from the current
`loop_params_stage` / `lock_detect_params` configuration. -/
def tracker_gps_l2cm_init (env : Env) (lp : LoopParams) (ldp : LockDetectParams)
    (common : CommonData) : TrackerData × List Event :=
  let int_ms := lp.coherent_ms
  let alias_detect_ms := lp.coherent_ms
  let data : TrackerData :=
    { tl_state := env.aided_tl_init (1000 / (int_ms : ℚ))
        (common.code_phase_rate - GPS_CA_CHIPPING_RATE) lp common.carrier_freq
      cs := ⟨⟨0, 0⟩, ⟨0, 0⟩, ⟨0, 0⟩⟩
      cn0_est := env.cn0_est_init (1000 / (int_ms : ℚ)) common.cn0
        CN0_EST_LPF_CUTOFF (1000 / (int_ms : ℚ))
      int_ms := int_ms
      short_cycle := true
      stage := 0
      alias_detect := env.alias_detect_init
        (L2C_ALIAS_DETECT_INTERVAL_MS / alias_detect_ms)
        (((alias_detect_ms : ℚ) - 1) / 1000)
      lock_detect := env.lock_detect_init ldp.k1 ldp.k2 ldp.lp ldp.lo }
  (data, [Event.ambiguityUnknown])

/-- External collaborators of `do_l1ca_to_l2cm_handover`: the channel
count, the per-index availability queries for the L2CM `SignalId`, the
source-channel snapshot getters, and the success of the two slot
initialisations.  All live outside this file's source. -/
structure HandoverEnv where
  nap_track_n_channels : ℕ
  tracker_channel_available : ℕ → Bool
  decoder_channel_available : ℕ → Bool
  nap_timing_count : ℤ
  source_carrier_freq : ℚ
  source_cn0 : ℚ
  source_elevation : ℤ
  tracker_channel_init_ok : Bool
  decoder_channel_init_ok : Bool

/-- Side effects of one handover call, in program order.  Channel mutation
occurs only through `trackerChannelInit` / `decoderChannelInit`. -/
inductive HEvent where
  | logInfoNoL2CSupport (sat : ℕ)
  | logWarnNoFreeChannel
  | trackerChannelInit (channel : ℕ) (sat : ℕ) (ref_sample_count : ℤ)
      (code_phase : ℚ) (carrier_freq : ℚ) (cn0_init : ℚ) (elevation : ℤ)
  | logErrorTrackerInitFailed
  | logInfoHandoverDone (channel : ℕ) (parent : ℕ)
  | decoderChannelInit (channel : ℕ) (sat : ℕ)
  | logErrorDecoderInitFailed
  deriving DecidableEq, Repr

/-- The stubbed capability word `l2c_cpbl = ~0` (`u32` all-ones) and its
test `0 == (l2c_cpbl & ((u32)1 << sat))`: the shifted mask is reduced
mod 2^32 as on the 32-bit target. -/
def l2c_capable (sat : ℕ) : Bool :=
  ((u32Mod - 1) &&& ((1 <<< sat) % u32Mod)) ≠ 0

/-- The linear scan for the first channel index where both the tracking
and the decode slot are free (source lines 170–178); `none` models the
sentinel `-1`. -/
def find_free_channel (henv : HandoverEnv) : Option ℕ :=
  (List.range henv.nap_track_n_channels).find? fun i =>
    henv.tracker_channel_available i && henv.decoder_channel_available i

/-- `do_l1ca_to_l2cm_handover`: checks the (stubbed) L2C capability, scans
for a free tracking+decode channel pair, and on success seeds the tracking
channel from the source snapshot — with the Doppler rescaled by
`GPS_L2_HZ / GPS_L1_HZ` — then starts the decoder channel.  Decoder
failure does not roll back the tracking allocation. -/
def do_l1ca_to_l2cm_handover (henv : HandoverEnv) (sat : ℕ)
    (nap_channel : ℕ) (code_phase : ℚ) : List HEvent :=
  if !l2c_capable sat then
    [HEvent.logInfoNoL2CSupport sat]
  else
    match find_free_channel henv with
    | none => [HEvent.logWarnNoFreeChannel]
    | some i =>
      let ref_sample_count := henv.nap_timing_count
      let carrier_freq := henv.source_carrier_freq * GPS_L2_HZ / GPS_L1_HZ
      let cn0_init := henv.source_cn0
      let elevation := henv.source_elevation
      [HEvent.trackerChannelInit i sat ref_sample_count code_phase
          carrier_freq cn0_init elevation]
        ++ (if henv.tracker_channel_init_ok then
              [HEvent.logInfoHandoverDone i nap_channel]
            else [HEvent.logErrorTrackerInitFailed])
        ++ [HEvent.decoderChannelInit i sat]
        ++ (if henv.decoder_channel_init_ok then []
            else [HEvent.logErrorDecoderInitFailed])

/-- The NUL byte written by `strncpy` padding and by the explicit
terminator store. -/
def nulChar : Char := Char.ofNat 0

/-- `strncpy(dst, src, n)` on a `src` without embedded NUL bytes: copies
at most `n` characters and NUL-pads up to `n`; bytes of `dst` beyond `n`
are untouched. -/
def strncpyList (dst src : List Char) (n : ℕ) : List Char :=
  src.take n ++ List.replicate (n - src.length) nulChar ++ dst.drop n

/-- Lines 437–441 / 465–469 of the source: `strncpy` into the backing
buffer of capacity `len` followed by the forced NUL terminator at index
`len - 1` whenever `len > 0`. -/
def store_setting_string (len : ℕ) (dst val : List Char) : List Char :=
  let copied := strncpyList dst val len
  if 0 < len then copied.set (len - 1) nulChar else copied

/-- `isspace` for the scanf whitespace directives. -/
def isSpaceChar (c : Char) : Bool :=
  c == ' ' || c == '\t' || c == '\n' || c == '\r' ||
    c == Char.ofNat 11 || c == Char.ofNat 12

/-- Skip a (possibly empty) run of whitespace, as a whitespace directive
in a scanf format does. -/
def skipWs : List Char → List Char
  | [] => []
  | c :: cs => if isSpaceChar c then skipWs cs else c :: cs

/-- Value of a digit run, most significant first. -/
def digitsVal (ds : List Char) : ℕ :=
  ds.foldl (fun n c => 10 * n + (c.toNat - 48)) 0

/-- Modelled from the spec and the C library contract of `sscanf`'s `%u`
conversion: skip leading whitespace, then read a nonempty run of decimal
digits. -/
def scanUInt (s : List Char) : Option (ℕ × List Char) :=
  let s := skipWs s
  let p := s.span Char.isDigit
  if p.1.isEmpty then none else some (digitsVal p.1, p.2)

/-- Modelled from the spec and the C library contract of `sscanf`'s `%f`
conversion: skip leading whitespace, then an optional sign, a digit run
with an optional fractional part (at least one digit overall), and an
optional exponent.  The exact value is returned as a rational. -/
def scanFloat (s : List Char) : Option (ℚ × List Char) :=
  let s := skipWs s
  let sign : ℚ × List Char :=
    match s with
    | '-' :: r => (-1, r)
    | '+' :: r => (1, r)
    | _ => (1, s)
  let p1 := sign.2.span Char.isDigit
  let frac : List Char × List Char :=
    match p1.2 with
    | '.' :: r => r.span Char.isDigit
    | _ => ([], p1.2)
  if p1.1.isEmpty ∧ frac.1.isEmpty then none
  else
    let mant : ℚ :=
      sign.1 * ((digitsVal (p1.1 ++ frac.1) : ℚ) / (10 : ℚ) ^ frac.1.length)
    match frac.2 with
    | 'e' :: r => scanExponent mant r
    | 'E' :: r => scanExponent mant r
    | rest => some (mant, rest)
where
  /-- The exponent part `[+-]?digits` after an `e`/`E`; scanf fails the
  whole conversion when the digits are missing. -/
  scanExponent (mant : ℚ) (s : List Char) : Option (ℚ × List Char) :=
    let esign : ℤ × List Char :=
      match s with
      | '-' :: r => (-1, r)
      | '+' :: r => (1, r)
      | _ => (1, s)
    let p := esign.2.span Char.isDigit
    if p.1.isEmpty then none
    else some (mant * (10 : ℚ) ^ (esign.1 * (digitsVal p.1 : ℤ)), p.2)

/-- Match one literal (non-whitespace) format character. -/
def matchChar (c : Char) (s : List Char) : Option (List Char) :=
  match s with
  | x :: r => if x == c then some r else none
  | [] => none

/-- A `" , %f"` stretch of the loop-params format: whitespace, the comma,
then the next float conversion. -/
def scanCommaFloat (s : List Char) : Option (ℚ × List Char) :=
  (matchChar ',' (skipWs s)).bind fun s1 => scanFloat s1

/-- A `"( %f , %f , %f , %f"` stretch of the loop-params format: the
opening parenthesis (after whitespace) and four comma-separated float
conversions. -/
def scanQuad (s : List Char) : Option ((ℚ × ℚ × ℚ × ℚ) × List Char) :=
  (matchChar '(' (skipWs s)).bind fun s1 =>
  (scanFloat s1).bind fun (a, s2) =>
  (scanCommaFloat s2).bind fun (b, s3) =>
  (scanCommaFloat s3).bind fun (c, s4) =>
  (scanCommaFloat s4).bind fun (d, s5) =>
  some ((a, b, c, d), s5)

/-- The `sscanf` call of `parse_loop_params` with format
`"( %u ms , ( %f , %f , %f , %f ) , ( %f , %f , %f , %f ) ) "`, up to its
ninth (last) conversion: the return-count test `< 9` succeeds exactly when
all nine conversions are assigned, and the format text after the last
conversion cannot lower the count. -/
def scan_loop_params (s : List Char) :
    Option (ℕ × (ℚ × ℚ × ℚ × ℚ) × (ℚ × ℚ × ℚ × ℚ)) :=
  (matchChar '(' s).bind fun s1 =>
  (scanUInt s1).bind fun (tmp, s2) =>
  (matchChar 'm' (skipWs s2)).bind fun s3 =>
  (matchChar 's' s3).bind fun s4 =>
  (matchChar ',' (skipWs s4)).bind fun s5 =>
  (scanQuad s5).bind fun (g1, s6) =>
  (matchChar ')' (skipWs s6)).bind fun s7 =>
  (matchChar ',' (skipWs s7)).bind fun s8 =>
  (scanQuad s8).bind fun (g2, _) =>
  some (tmp, g1, g2)

/-- `parse_loop_params`: scans the input into a local struct; fewer than
nine conversions is a parse error; `coherent_ms` is the scanned value
narrowed to `u8` and must equal `L2C_COHERENT_INTEGRATION_TIME_MS`; only
on success are the setting string (capacity `len`) and
`loop_params_stage` overwritten. -/
def parse_loop_params (len : ℕ) (stored : List Char) (stage : LoopParams)
    (val : List Char) : Bool × List Char × LoopParams :=
  match scan_loop_params val with
  | none => (false, stored, stage)
  | some (tmp, c, k) =>
    let l : LoopParams :=
      { code_bw := c.1, code_zeta := c.2.1, code_k := c.2.2.1
        carr_to_code := c.2.2.2
        carr_bw := k.1, carr_zeta := k.2.1, carr_k := k.2.2.1
        carr_fll_aid_gain := k.2.2.2
        coherent_ms := tmp % 256 }
    if l.coherent_ms ≠ L2C_COHERENT_INTEGRATION_TIME_MS then
      (false, stored, stage)
    else
      (true, store_setting_string len stored val, l)

/-- The `sscanf` call of `parse_lock_detect_params` with format
`"%f , %f , %u16 , %u16"`, up to its fourth (last) conversion; the
`u16` values are narrowed mod 2^16. -/
def scan_lock_detect_params (s : List Char) : Option LockDetectParams :=
  (scanFloat s).bind fun (k1, s1) =>
  (scanCommaFloat s1).bind fun (k2, s2) =>
  (matchChar ',' (skipWs s2)).bind fun s3 =>
  (scanUInt s3).bind fun (lp, s4) =>
  (matchChar ',' (skipWs s4)).bind fun s5 =>
  (scanUInt s5).bind fun (lo, _) =>
  some { k1 := k1, k2 := k2, lp := lp % 65536, lo := lo % 65536 }

/-- `parse_lock_detect_params`: scans the input into a local struct; fewer
than four conversions is a parse error; only on success are the setting
string (capacity `len`) and `lock_detect_params` overwritten. -/
def parse_lock_detect_params (len : ℕ) (stored : List Char)
    (cur : LockDetectParams) (val : List Char) :
    Bool × List Char × LockDetectParams :=
  match scan_lock_detect_params val with
  | none => (false, stored, cur)
  | some p => (true, store_setting_string len stored val, p)

/-! Observers: the values of key intermediate expressions of a LONG update
call, re-stated from the same source expressions so that theorems can
name them in hypotheses. -/

/-- The full-interval accumulator of a LONG call: the stored short-cycle
triplet plus the newly read one (source lines 286–289). -/
def longCs (inp : Inputs) (d : TrackerData) : Corr3 :=
  addCorr3 d.cs inp.cs

/-- The C/N0 estimate computed during a LONG call (source lines 319–320). -/
def longCn0 (env : Env) (inp : Inputs) (d : TrackerData) : ℚ :=
  (env.cn0_est_update d.cn0_est
    ((Int.tdiv (longCs inp d).c1.I (d.int_ms : ℤ) : ℤ) : ℚ)
    ((Int.tdiv (longCs inp d).c1.Q (d.int_ms : ℤ) : ℤ) : ℚ)).1

/-- The lock detector state after the `lock_detect_update` of a LONG call
(source line 335). -/
def longLockDetect (env : Env) (inp : Inputs) (d : TrackerData) : LockDetect :=
  env.lock_detect_update d.lock_detect
    (((longCs inp d).c1.I : ℤ) : ℚ) (((longCs inp d).c1.Q : ℤ) : ℚ) d.int_ms

/-- The loop filter state after the `aided_tl_update` of a LONG call
(source line 360), before any alias feed-forward correction. -/
def longFilteredTl (env : Env) (inp : Inputs) (d : TrackerData) : AidedTl :=
  env.aided_tl_update d.tl_state (revCorr3 (longCs inp d))

/-- The alias-detector frequency-error estimate of a LONG call (source
lines 369–371). -/
def longAliasErr (env : Env) (inp : Inputs) (d : TrackerData) : ℚ :=
  (env.alias_detect_second d.alias_detect
    (ratTrunc ((((longCs inp d).c1.I : ℚ) - d.alias_detect.first_I) /
      ((d.int_ms : ℚ) - 1)))
    (ratTrunc ((((longCs inp d).c1.Q : ℚ) - d.alias_detect.first_Q) /
      ((d.int_ms : ℚ) - 1)))).1

/-- The `cn0_est` call of the long cycle (source lines 319–320) on the
accumulated state: the fresh estimate and the successor estimator state. -/
def cn0_est_result (env : Env) (d : TrackerData) : ℚ × Cn0Est :=
  env.cn0_est_update d.cn0_est
    ((Int.tdiv d.cs.c1.I (d.int_ms : ℤ) : ℤ) : ℚ)
    ((Int.tdiv d.cs.c1.Q (d.int_ms : ℤ) : ℤ) : ℚ)

/-- The `lock_detect_update` call of the long cycle (source line 335) on
the accumulated state. -/
def lock_detect_result (env : Env) (d : TrackerData) : LockDetect :=
  env.lock_detect_update d.lock_detect (d.cs.c1.I : ℚ) (d.cs.c1.Q : ℚ)
    d.int_ms

/-- The `alias_detect_second` call of the long cycle (source lines
369–371) on the accumulated state. -/
def alias_second_result (env : Env) (d : TrackerData) : ℚ × AliasDetect :=
  env.alias_detect_second d.alias_detect
    (ratTrunc (((d.cs.c1.I : ℚ) - d.alias_detect.first_I) /
      ((d.int_ms : ℚ) - 1)))
    (ratTrunc (((d.cs.c1.Q : ℚ) - d.alias_detect.first_Q) /
      ((d.int_ms : ℚ) - 1)))

/-- The alias threshold `250 / data->int_ms` (source line 372), an integer
division. -/
def aliasThreshold (d : TrackerData) : ℚ :=
  ((Int.tdiv 250 (d.int_ms : ℤ) : ℤ) : ℚ)

/-- The division sites of `tracker_gps_l2cm_update`: the two `/ int_ms` in
the C/N0 update (source lines 319–320), the two `/ (int_ms - 1)` in the
alias remainder (lines 369–370), and the `250 / int_ms` threshold
(line 372). -/
def update_divisors (d : TrackerData) : List ℤ :=
  [(d.int_ms : ℤ), (d.int_ms : ℤ), (d.int_ms : ℤ) - 1, (d.int_ms : ℤ) - 1,
    (d.int_ms : ℤ)]

/-! Concrete fixtures used by witnesses and counterexamples. -/

/-- The all-zero correlation triplet. -/
def zeroCorr3 : Corr3 := ⟨⟨0, 0⟩, ⟨0, 0⟩, ⟨0, 0⟩⟩

/-- A lock detector state with both outputs clear. -/
def ldZero : LockDetect := ⟨0, 0, false, false, 0, 0⟩

/-- A zeroed loop filter slice. -/
def tlZero : AidedTl := ⟨0, 0, 0⟩

/-- A zeroed C/N0 estimator state. -/
def cn0Zero : Cn0Est := ⟨0, 0, 0, 0, 0⟩

/-- A zeroed alias detector state. -/
def adZero : AliasDetect := ⟨0, 0, 0, 0, 0, 0, 0⟩

/-- A trivial environment: every collaborator is a constant/identity
function. -/
def envZero : Env :=
  { tow_update := fun t _ => t
    cn0_est_update := fun st _ _ => (0, st)
    lock_detect_update := fun ld _ _ _ => ld
    aided_tl_update := fun tl _ => tl
    alias_detect_second := fun a _ _ => (0, a)
    bit_aligned := false
    aided_tl_init := fun _ _ _ _ => tlZero
    cn0_est_init := fun _ _ _ _ => cn0Zero
    lock_detect_init := fun _ _ _ _ => ldZero
    alias_detect_init := fun _ _ => adZero }

/-- A zeroed shared state. -/
def commonZero : CommonData := ⟨0, 0, 0, 0, 0, 0, 0, 0, 0, 0, 0, 0, 0⟩

/-- A stage-1 private state about to run a LONG cycle (`int_ms = 20`). -/
def dataLong : TrackerData :=
  { tl_state := tlZero, cs := zeroCorr3, cn0_est := cn0Zero, int_ms := 20
    short_cycle := false, stage := 1, alias_detect := adZero
    lock_detect := ldZero }

/-- A stage-1 private state about to run a SHORT cycle. -/
def dataShort : TrackerData := { dataLong with short_cycle := true }

/-- The default thresholds (31 dBHz) with alias detection enabled. -/
def cfgZero : Config := ⟨true, 31, 31⟩

/-- A zero hardware read. -/
def inpZero : Inputs := ⟨zeroCorr3, 0, 0, 0⟩

/-- A concrete nontrivial read for a SHORT call. -/
def inpA : Inputs := ⟨⟨⟨1, 2⟩, ⟨2, 3⟩, ⟨3, 4⟩⟩, 10, 5, 6⟩

/-- A concrete nontrivial read for the following LONG call. -/
def inpB : Inputs := ⟨⟨⟨2, 2⟩, ⟨3, 3⟩, ⟨4, 4⟩⟩, 11, 7, 8⟩

/-- A lock detector state holding pessimistic lock. -/
def ldOutp : LockDetect := { ldZero with outp := true }

/-- A LONG-cycle private state that currently holds pessimistic lock. -/
def dataPess : TrackerData := { dataLong with lock_detect := ldOutp }

/-- An environment whose lock detector drops both outputs on update. -/
def envDrop : Env :=
  { envZero with lock_detect_update := fun _ _ _ _ => ldZero }

/-- Thresholds placing a 50 dBHz estimate above drop and below use. -/
def cfgThres : Config := ⟨true, 100, -1⟩

/-- An environment whose C/N0 estimator always reports 50 dBHz. -/
def envCn0 : Env :=
  { envZero with cn0_est_update := fun st _ _ => (50, st) }

/-- An environment that reports pessimistic lock and an alias error of
13 Hz, past the 12.5 Hz threshold of a 20 ms integration. -/
def envAlias : Env :=
  { envZero with
      lock_detect_update := fun _ _ _ _ => ldOutp
      alias_detect_second := fun a _ _ => (13, a) }

/-- The default loop-parameter setting string of the source. -/
def goodLoopStr : List Char :=
  "(20 ms, (1, 0.7, 1, 1200), (13, 0.7, 1, 5))".toList

/-- The same string with a 10 ms coherent length, which must be
rejected. -/
def badCoherentStr : List Char :=
  "(10 ms, (1, 0.7, 1, 1200), (13, 0.7, 1, 5))".toList

/-- A string neither parser accepts. -/
def garbageStr : List Char := "garbage".toList

/-- The default lock-detector setting string of the source. -/
def goodLockStr : List Char := "0.0247, 1.5, 50, 240".toList

/-- An all-zero stand-in for the prior contents of a setting buffer. -/
def storedZero : List Char := List.replicate 8 nulChar

/-- An arbitrary previously stored loop-parameter struct. -/
def lpZero : LoopParams := ⟨0, 0, 0, 0, 0, 0, 0, 0, 0⟩

/-- An arbitrary previously stored lock-detector struct. -/
def ldpZero : LockDetectParams := ⟨0, 0, 0, 0⟩

/-- A handover environment where exactly channel 3 has both the tracking
and the decode slot free. -/
def henvOne : HandoverEnv :=
  { nap_track_n_channels := 12
    tracker_channel_available := fun i => i == 3
    decoder_channel_available := fun _ => true
    nap_timing_count := 1000
    source_carrier_freq := 100
    source_cn0 := 40
    source_elevation := 45
    tracker_channel_init_ok := true
    decoder_channel_init_ok := true }

/-- A handover environment with no free tracking slot at all. -/
def henvNone : HandoverEnv :=
  { henvOne with tracker_channel_available := fun _ => false }

/-! Characterization lemmas: each phase of the update call in one
equation, with the per-field conditionals made explicit. -/

/-- A SHORT update call in one equation: store the read triplet, record
the alias first sample, update TOW by 1 ms, flip `short_cycle`, and issue
the zero-rollover retune with the unchanged carrier/code parameters. -/
theorem update_short_eq (cfg : Config) (env : Env) (inp : Inputs)
    (c : CommonData) (d : TrackerData) (h : d.short_cycle = true) :
    tracker_gps_l2cm_update cfg env inp c d =
      ({ c with
          sample_count := inp.sample_count
          code_phase_early := inp.code_phase_early
          carrier_phase := inp.carrier_phase
          TOW_ms := env.tow_update c.TOW_ms 1 },
        { d with
            cs := inp.cs
            alias_detect := alias_detect_first d.alias_detect
              (inp.cs.c1.I : ℚ) (inp.cs.c1.Q : ℚ)
            short_cycle := false },
        [Event.retune c.carrier_freq c.code_phase_rate 0]) := by
  simp [tracker_gps_l2cm_update, h]

/-- A LONG update call dispatches to `tracker_gps_l2cm_update_long` on the
accumulated state, with TOW advanced by `int_ms - 1` and `short_cycle`
flipped back to `true`. -/
theorem update_long_dispatch (cfg : Config) (env : Env) (inp : Inputs)
    (c : CommonData) (d : TrackerData) (h : d.short_cycle = false) :
    tracker_gps_l2cm_update cfg env inp c d =
      tracker_gps_l2cm_update_long cfg env
        { c with
            sample_count := inp.sample_count
            code_phase_early := inp.code_phase_early
            carrier_phase := inp.carrier_phase
            TOW_ms := env.tow_update c.TOW_ms (d.int_ms - 1) }
        { d with cs := longCs inp d, short_cycle := true } := by
  simp [tracker_gps_l2cm_update, h, longCs]

/-- The C/N0 block in one equation: per-field conditionals on the fresh
estimate. -/
theorem cn0_update_step_eq (cfg : Config) (env : Env) (c : CommonData)
    (d : TrackerData) :
    cn0_update_step cfg env c d =
      ({ c with
          cn0 := (env.cn0_est_update d.cn0_est
            ((Int.tdiv d.cs.c1.I (d.int_ms : ℤ) : ℤ) : ℚ)
            ((Int.tdiv d.cs.c1.Q (d.int_ms : ℤ) : ℤ) : ℚ)).1
          cn0_above_drop_thres_count :=
            if (env.cn0_est_update d.cn0_est
                ((Int.tdiv d.cs.c1.I (d.int_ms : ℤ) : ℤ) : ℚ)
                ((Int.tdiv d.cs.c1.Q (d.int_ms : ℤ) : ℤ) : ℚ)).1 >
                cfg.track_cn0_drop_thres then
              c.update_count
            else c.cn0_above_drop_thres_count
          cn0_below_use_thres_count :=
            if (env.cn0_est_update d.cn0_est
                ((Int.tdiv d.cs.c1.I (d.int_ms : ℤ) : ℤ) : ℚ)
                ((Int.tdiv d.cs.c1.Q (d.int_ms : ℤ) : ℤ) : ℚ)).1 <
                cfg.track_cn0_use_thres then
              c.update_count
            else c.cn0_below_use_thres_count },
        { d with cn0_est := (env.cn0_est_update d.cn0_est
            ((Int.tdiv d.cs.c1.I (d.int_ms : ℤ) : ℤ) : ℚ)
            ((Int.tdiv d.cs.c1.Q (d.int_ms : ℤ) : ℤ) : ℚ)).2 },
        if (env.cn0_est_update d.cn0_est
            ((Int.tdiv d.cs.c1.I (d.int_ms : ℤ) : ℤ) : ℚ)
            ((Int.tdiv d.cs.c1.Q (d.int_ms : ℤ) : ℤ) : ℚ)).1 <
            cfg.track_cn0_use_thres then
          [Event.ambiguityUnknown]
        else []) := by
  simp only [cn0_update_step]
  split_ifs <;> simp_all

/-- The lock detector block in one equation: per-field conditionals on the
fresh detector outputs, plus the true→false stress events. -/
theorem lock_detect_step_eq (env : Env) (c : CommonData) (d : TrackerData) :
    lock_detect_step env c d =
      ({ c with
          ld_opti_locked_count :=
            if (env.lock_detect_update d.lock_detect (d.cs.c1.I : ℚ)
                (d.cs.c1.Q : ℚ) d.int_ms).outo then
              c.update_count
            else c.ld_opti_locked_count
          ld_pess_unlocked_count :=
            if !(env.lock_detect_update d.lock_detect (d.cs.c1.I : ℚ)
                (d.cs.c1.Q : ℚ) d.int_ms).outp then
              c.update_count
            else c.ld_pess_unlocked_count },
        { d with lock_detect := (env.lock_detect_update d.lock_detect
            (d.cs.c1.I : ℚ) (d.cs.c1.Q : ℚ) d.int_ms) },
        if d.lock_detect.outp && !(env.lock_detect_update d.lock_detect
            (d.cs.c1.I : ℚ) (d.cs.c1.Q : ℚ) d.int_ms).outp then
          [Event.logInfoPllStress, Event.ambiguityUnknown]
        else []) := by
  simp only [lock_detect_step]
  split_ifs <;> simp_all

/-- The alias detection block in one equation: nothing happens unless the
feature is enabled and at least optimistic lock holds; past the threshold
the feed-forward correction lands in `carr_freq` and `carr_filt.y`. -/
theorem alias_detect_step_eq (cfg : Config) (env : Env) (c : CommonData)
    (d : TrackerData) :
    alias_detect_step cfg env c d =
      (if cfg.use_alias_detection && (d.lock_detect.outp || d.lock_detect.outo) then
        if |(env.alias_detect_second d.alias_detect
              (ratTrunc (((d.cs.c1.I : ℚ) - d.alias_detect.first_I) /
                ((d.int_ms : ℚ) - 1)))
              (ratTrunc (((d.cs.c1.Q : ℚ) - d.alias_detect.first_Q) /
                ((d.int_ms : ℚ) - 1)))).1| >
            ((Int.tdiv 250 (d.int_ms : ℤ) : ℤ) : ℚ) then
          ({ c with mode_change_count := c.update_count },
            { d with
                alias_detect := (env.alias_detect_second d.alias_detect
                  (ratTrunc (((d.cs.c1.I : ℚ) - d.alias_detect.first_I) /
                    ((d.int_ms : ℚ) - 1)))
                  (ratTrunc (((d.cs.c1.Q : ℚ) - d.alias_detect.first_Q) /
                    ((d.int_ms : ℚ) - 1)))).2
                tl_state := { d.tl_state with
                  carr_freq := d.tl_state.carr_freq +
                    (env.alias_detect_second d.alias_detect
                      (ratTrunc (((d.cs.c1.I : ℚ) - d.alias_detect.first_I) /
                        ((d.int_ms : ℚ) - 1)))
                      (ratTrunc (((d.cs.c1.Q : ℚ) - d.alias_detect.first_Q) /
                        ((d.int_ms : ℚ) - 1)))).1
                  carr_filt_y := d.tl_state.carr_freq +
                    (env.alias_detect_second d.alias_detect
                      (ratTrunc (((d.cs.c1.I : ℚ) - d.alias_detect.first_I) /
                        ((d.int_ms : ℚ) - 1)))
                      (ratTrunc (((d.cs.c1.Q : ℚ) - d.alias_detect.first_Q) /
                        ((d.int_ms : ℚ) - 1)))).1 } },
            (if d.lock_detect.outp then [Event.logWarnFalsePhaseLock] else [])
              ++ [Event.ambiguityUnknown])
        else
          (c,
            { d with
                alias_detect := (env.alias_detect_second d.alias_detect
                  (ratTrunc (((d.cs.c1.I : ℚ) - d.alias_detect.first_I) /
                    ((d.int_ms : ℚ) - 1)))
                  (ratTrunc (((d.cs.c1.Q : ℚ) - d.alias_detect.first_Q) /
                    ((d.int_ms : ℚ) - 1)))).2 },
            [])
      else (c, d, [])) := by
  simp only [alias_detect_step]

/-- Field-by-field form of `cn0_update_step_eq`, phrased as rewrite rules. -/
theorem cn0_update_step_fields (cfg : Config) (env : Env) (c : CommonData)
    (d : TrackerData) :
    (cn0_update_step cfg env c d).1.update_count = c.update_count ∧
      (cn0_update_step cfg env c d).1.carrier_freq = c.carrier_freq ∧
      (cn0_update_step cfg env c d).1.code_phase_rate = c.code_phase_rate ∧
      (cn0_update_step cfg env c d).1.cn0 = (cn0_est_result env d).1 ∧
      (cn0_update_step cfg env c d).1.cn0_above_drop_thres_count =
        (if (cn0_est_result env d).1 > cfg.track_cn0_drop_thres then
          c.update_count else c.cn0_above_drop_thres_count) ∧
      (cn0_update_step cfg env c d).1.cn0_below_use_thres_count =
        (if (cn0_est_result env d).1 < cfg.track_cn0_use_thres then
          c.update_count else c.cn0_below_use_thres_count) ∧
      (cn0_update_step cfg env c d).1.ld_opti_locked_count =
        c.ld_opti_locked_count ∧
      (cn0_update_step cfg env c d).1.ld_pess_unlocked_count =
        c.ld_pess_unlocked_count ∧
      (cn0_update_step cfg env c d).1.mode_change_count =
        c.mode_change_count ∧
      (cn0_update_step cfg env c d).2.1.tl_state = d.tl_state ∧
      (cn0_update_step cfg env c d).2.1.cs = d.cs ∧
      (cn0_update_step cfg env c d).2.1.int_ms = d.int_ms ∧
      (cn0_update_step cfg env c d).2.1.short_cycle = d.short_cycle ∧
      (cn0_update_step cfg env c d).2.1.lock_detect = d.lock_detect ∧
      (cn0_update_step cfg env c d).2.1.alias_detect = d.alias_detect ∧
      (cn0_update_step cfg env c d).2.1.cn0_est = (cn0_est_result env d).2 ∧
      (cn0_update_step cfg env c d).2.2 =
        (if (cn0_est_result env d).1 < cfg.track_cn0_use_thres then
          [Event.ambiguityUnknown] else []) := by
  rw [cn0_update_step_eq]
  exact ⟨rfl, rfl, rfl, rfl, rfl, rfl, rfl, rfl, rfl, rfl, rfl, rfl, rfl,
    rfl, rfl, rfl, rfl⟩

/-- Field-by-field form of `lock_detect_step_eq`, phrased as rewrite
rules. -/
theorem lock_detect_step_fields (env : Env) (c : CommonData)
    (d : TrackerData) :
    (lock_detect_step env c d).1.update_count = c.update_count ∧
      (lock_detect_step env c d).1.carrier_freq = c.carrier_freq ∧
      (lock_detect_step env c d).1.code_phase_rate = c.code_phase_rate ∧
      (lock_detect_step env c d).1.cn0 = c.cn0 ∧
      (lock_detect_step env c d).1.cn0_above_drop_thres_count =
        c.cn0_above_drop_thres_count ∧
      (lock_detect_step env c d).1.cn0_below_use_thres_count =
        c.cn0_below_use_thres_count ∧
      (lock_detect_step env c d).1.ld_opti_locked_count =
        (if (lock_detect_result env d).outo then c.update_count
          else c.ld_opti_locked_count) ∧
      (lock_detect_step env c d).1.ld_pess_unlocked_count =
        (if !(lock_detect_result env d).outp then c.update_count
          else c.ld_pess_unlocked_count) ∧
      (lock_detect_step env c d).1.mode_change_count =
        c.mode_change_count ∧
      (lock_detect_step env c d).2.1.tl_state = d.tl_state ∧
      (lock_detect_step env c d).2.1.cs = d.cs ∧
      (lock_detect_step env c d).2.1.int_ms = d.int_ms ∧
      (lock_detect_step env c d).2.1.short_cycle = d.short_cycle ∧
      (lock_detect_step env c d).2.1.lock_detect =
        lock_detect_result env d ∧
      (lock_detect_step env c d).2.1.alias_detect = d.alias_detect ∧
      (lock_detect_step env c d).2.1.cn0_est = d.cn0_est ∧
      (lock_detect_step env c d).2.2 =
        (if d.lock_detect.outp && !(lock_detect_result env d).outp then
          [Event.logInfoPllStress, Event.ambiguityUnknown] else []) := by
  rw [lock_detect_step_eq]
  exact ⟨rfl, rfl, rfl, rfl, rfl, rfl, rfl, rfl, rfl, rfl, rfl, rfl, rfl,
    rfl, rfl, rfl, rfl⟩

/-- Field-by-field form of `loop_filter_step`, phrased as rewrite rules. -/
theorem loop_filter_step_fields (env : Env) (c : CommonData)
    (d : TrackerData) :
    (loop_filter_step env c d).1.update_count = c.update_count ∧
      (loop_filter_step env c d).1.carrier_freq =
        (env.aided_tl_update d.tl_state (revCorr3 d.cs)).carr_freq ∧
      (loop_filter_step env c d).1.code_phase_rate =
        (env.aided_tl_update d.tl_state (revCorr3 d.cs)).code_freq +
          GPS_CA_CHIPPING_RATE ∧
      (loop_filter_step env c d).1.cn0 = c.cn0 ∧
      (loop_filter_step env c d).1.cn0_above_drop_thres_count =
        c.cn0_above_drop_thres_count ∧
      (loop_filter_step env c d).1.cn0_below_use_thres_count =
        c.cn0_below_use_thres_count ∧
      (loop_filter_step env c d).1.ld_opti_locked_count =
        c.ld_opti_locked_count ∧
      (loop_filter_step env c d).1.ld_pess_unlocked_count =
        c.ld_pess_unlocked_count ∧
      (loop_filter_step env c d).1.mode_change_count =
        c.mode_change_count ∧
      (loop_filter_step env c d).2.tl_state =
        env.aided_tl_update d.tl_state (revCorr3 d.cs) ∧
      (loop_filter_step env c d).2.cs = d.cs ∧
      (loop_filter_step env c d).2.int_ms = d.int_ms ∧
      (loop_filter_step env c d).2.short_cycle = d.short_cycle ∧
      (loop_filter_step env c d).2.lock_detect = d.lock_detect ∧
      (loop_filter_step env c d).2.alias_detect = d.alias_detect ∧
      (loop_filter_step env c d).2.cn0_est = d.cn0_est :=
  ⟨rfl, rfl, rfl, rfl, rfl, rfl, rfl, rfl, rfl, rfl, rfl, rfl, rfl, rfl,
    rfl, rfl⟩

/-- Field-by-field form of `alias_detect_step_eq`, phrased as rewrite
rules. -/
theorem alias_detect_step_fields (cfg : Config) (env : Env)
    (c : CommonData) (d : TrackerData) :
    (alias_detect_step cfg env c d).1.update_count = c.update_count ∧
      (alias_detect_step cfg env c d).1.carrier_freq = c.carrier_freq ∧
      (alias_detect_step cfg env c d).1.code_phase_rate =
        c.code_phase_rate ∧
      (alias_detect_step cfg env c d).1.cn0 = c.cn0 ∧
      (alias_detect_step cfg env c d).1.cn0_above_drop_thres_count =
        c.cn0_above_drop_thres_count ∧
      (alias_detect_step cfg env c d).1.cn0_below_use_thres_count =
        c.cn0_below_use_thres_count ∧
      (alias_detect_step cfg env c d).1.ld_opti_locked_count =
        c.ld_opti_locked_count ∧
      (alias_detect_step cfg env c d).1.ld_pess_unlocked_count =
        c.ld_pess_unlocked_count ∧
      (alias_detect_step cfg env c d).1.mode_change_count =
        (if cfg.use_alias_detection &&
            (d.lock_detect.outp || d.lock_detect.outo) then
          if |(alias_second_result env d).1| > aliasThreshold d then
            c.update_count
          else c.mode_change_count
        else c.mode_change_count) ∧
      (alias_detect_step cfg env c d).2.1.tl_state =
        (if cfg.use_alias_detection &&
            (d.lock_detect.outp || d.lock_detect.outo) then
          if |(alias_second_result env d).1| > aliasThreshold d then
            { d.tl_state with
                carr_freq := d.tl_state.carr_freq +
                  (alias_second_result env d).1
                carr_filt_y := d.tl_state.carr_freq +
                  (alias_second_result env d).1 }
          else d.tl_state
        else d.tl_state) ∧
      (alias_detect_step cfg env c d).2.1.cs = d.cs ∧
      (alias_detect_step cfg env c d).2.1.int_ms = d.int_ms ∧
      (alias_detect_step cfg env c d).2.1.short_cycle = d.short_cycle ∧
      (alias_detect_step cfg env c d).2.1.lock_detect = d.lock_detect ∧
      (alias_detect_step cfg env c d).2.1.alias_detect =
        (if cfg.use_alias_detection &&
            (d.lock_detect.outp || d.lock_detect.outo) then
          (alias_second_result env d).2
        else d.alias_detect) ∧
      (alias_detect_step cfg env c d).2.1.cn0_est = d.cn0_est ∧
      (alias_detect_step cfg env c d).2.2 =
        (if cfg.use_alias_detection &&
            (d.lock_detect.outp || d.lock_detect.outo) then
          if |(alias_second_result env d).1| > aliasThreshold d then
            (if d.lock_detect.outp then [Event.logWarnFalsePhaseLock]
              else []) ++ [Event.ambiguityUnknown]
          else []
        else []) := by
  rw [alias_detect_step_eq]
  simp only [alias_second_result, aliasThreshold]
  split_ifs <;>
    exact ⟨rfl, rfl, rfl, rfl, rfl, rfl, rfl, rfl, rfl, rfl, rfl, rfl, rfl,
      rfl, rfl, rfl, rfl⟩

/-- Field-by-field form of `sync_step`, phrased as rewrite rules. -/
theorem sync_step_fields (env : Env) (c : CommonData) (d : TrackerData) :
    (sync_step env c d).1.update_count = c.update_count ∧
      (sync_step env c d).1.carrier_freq = c.carrier_freq ∧
      (sync_step env c d).1.code_phase_rate = c.code_phase_rate ∧
      (sync_step env c d).1.cn0 = c.cn0 ∧
      (sync_step env c d).1.cn0_above_drop_thres_count =
        c.cn0_above_drop_thres_count ∧
      (sync_step env c d).1.cn0_below_use_thres_count =
        c.cn0_below_use_thres_count ∧
      (sync_step env c d).1.ld_opti_locked_count =
        c.ld_opti_locked_count ∧
      (sync_step env c d).1.ld_pess_unlocked_count =
        c.ld_pess_unlocked_count ∧
      (sync_step env c d).1.mode_change_count =
        (if d.lock_detect.outo && env.bit_aligned then c.update_count
          else c.mode_change_count) ∧
      (sync_step env c d).2 =
        (if d.lock_detect.outo && env.bit_aligned then
          [Event.logInfoSynced] else []) := by
  simp only [sync_step]
  split_ifs <;>
    exact ⟨rfl, rfl, rfl, rfl, rfl, rfl, rfl, rfl, rfl, rfl⟩

/-- The LONG tail never touches `short_cycle`, `cs`, or `int_ms`. -/
theorem update_long_data_invariants (cfg : Config) (env : Env)
    (c : CommonData) (d : TrackerData) :
    (tracker_gps_l2cm_update_long cfg env c d).2.1.short_cycle =
        d.short_cycle ∧
      (tracker_gps_l2cm_update_long cfg env c d).2.1.cs = d.cs ∧
      (tracker_gps_l2cm_update_long cfg env c d).2.1.int_ms = d.int_ms := by
  simp only [tracker_gps_l2cm_update_long, cn0_update_step_eq,
    lock_detect_step_eq, loop_filter_step, alias_detect_step_eq, sync_step]
  split_ifs <;> simp_all

/-- C2: init starts a channel with `short_cycle = true`, and every update
call — short or long — negates `short_cycle` exactly once, so the flag
strictly alternates across consecutive update calls. -/
theorem short_cycle_alternates :
    (∀ (env : Env) (lp : LoopParams) (ldp : LockDetectParams)
        (c : CommonData),
      (tracker_gps_l2cm_init env lp ldp c).1.short_cycle = true) ∧
    ∀ (cfg : Config) (env : Env) (inp : Inputs) (c : CommonData)
        (d : TrackerData),
      (tracker_gps_l2cm_update cfg env inp c d).2.1.short_cycle =
        !d.short_cycle := by
  refine ⟨fun env lp ldp c => rfl, fun cfg env inp c d => ?_⟩
  cases h : d.short_cycle with
  | true =>
    rw [update_short_eq cfg env inp c d h]
    rfl
  | false =>
    rw [update_long_dispatch cfg env inp c d h,
      (update_long_data_invariants cfg env _ _).1]
    rfl

/-- C3: after a SHORT call followed by a LONG call, the stored accumulator
equals the component-wise sum of the two raw correlation reads, whatever
the synthetic (I,Q) sequence. -/
theorem short_long_pair_accumulates (cfg1 cfg2 : Config) (env1 env2 : Env)
    (inp1 inp2 : Inputs) (c : CommonData) (d : TrackerData)
    (h : d.short_cycle = true) :
    ((tracker_gps_l2cm_update cfg2 env2 inp2
        (tracker_gps_l2cm_update cfg1 env1 inp1 c d).1
        (tracker_gps_l2cm_update cfg1 env1 inp1 c d).2.1).2.1).cs =
      addCorr3 inp1.cs inp2.cs := by
  rw [update_short_eq cfg1 env1 inp1 c d h]
  rw [update_long_dispatch cfg2 env2 inp2 _ _ rfl,
    (update_long_data_invariants cfg2 env2 _ _).2.1]
  rfl

/-- C3 witness: a concrete SHORT+LONG pair sums the two reads. -/
theorem short_long_pair_accumulates_witness :
    ((tracker_gps_l2cm_update cfgZero envZero inpB
        (tracker_gps_l2cm_update cfgZero envZero inpA commonZero dataShort).1
        (tracker_gps_l2cm_update cfgZero envZero inpA commonZero
          dataShort).2.1).2.1).cs =
      ⟨⟨3, 4⟩, ⟨5, 6⟩, ⟨7, 8⟩⟩ :=
  (short_long_pair_accumulates cfgZero cfgZero envZero envZero inpA inpB
    commonZero dataShort rfl).trans (by decide)

/-- C6: a SHORT call stores the read triplet, records the prompt (I,Q) as
the alias detector's first sample, issues the zero-length retune with the
unchanged carrier frequency and code phase rate, and returns leaving
`update_count`, `cn0`, `carrier_freq`, `code_phase_rate` and all five
event-timestamp counters untouched. -/
theorem short_cycle_frame (cfg : Config) (env : Env) (inp : Inputs)
    (c : CommonData) (d : TrackerData) (h : d.short_cycle = true) :
    tracker_gps_l2cm_update cfg env inp c d =
      ({ c with
          sample_count := inp.sample_count
          code_phase_early := inp.code_phase_early
          carrier_phase := inp.carrier_phase
          TOW_ms := env.tow_update c.TOW_ms 1 },
        { d with
            cs := inp.cs
            alias_detect := alias_detect_first d.alias_detect
              (inp.cs.c1.I : ℚ) (inp.cs.c1.Q : ℚ)
            short_cycle := false },
        [Event.retune c.carrier_freq c.code_phase_rate 0]) ∧
      (tracker_gps_l2cm_update cfg env inp c d).2.1.alias_detect.first_I =
        (inp.cs.c1.I : ℚ) ∧
      (tracker_gps_l2cm_update cfg env inp c d).2.1.alias_detect.first_Q =
        (inp.cs.c1.Q : ℚ) ∧
      (tracker_gps_l2cm_update cfg env inp c d).1.update_count =
        c.update_count ∧
      (tracker_gps_l2cm_update cfg env inp c d).1.cn0 = c.cn0 ∧
      (tracker_gps_l2cm_update cfg env inp c d).1.carrier_freq =
        c.carrier_freq ∧
      (tracker_gps_l2cm_update cfg env inp c d).1.code_phase_rate =
        c.code_phase_rate ∧
      (tracker_gps_l2cm_update cfg env inp c d).1.cn0_above_drop_thres_count =
        c.cn0_above_drop_thres_count ∧
      (tracker_gps_l2cm_update cfg env inp c d).1.cn0_below_use_thres_count =
        c.cn0_below_use_thres_count ∧
      (tracker_gps_l2cm_update cfg env inp c d).1.ld_opti_locked_count =
        c.ld_opti_locked_count ∧
      (tracker_gps_l2cm_update cfg env inp c d).1.ld_pess_unlocked_count =
        c.ld_pess_unlocked_count ∧
      (tracker_gps_l2cm_update cfg env inp c d).1.mode_change_count =
        c.mode_change_count := by
  have e := update_short_eq cfg env inp c d h
  rw [e]
  exact ⟨rfl, rfl, rfl, rfl, rfl, rfl, rfl, rfl, rfl, rfl, rfl, rfl⟩

/-- C6 witness: the frame conditions at a concrete SHORT call. -/
theorem short_cycle_frame_witness :
    tracker_gps_l2cm_update cfgZero envZero inpA commonZero dataShort =
      ({ commonZero with
          sample_count := inpA.sample_count
          code_phase_early := inpA.code_phase_early
          carrier_phase := inpA.carrier_phase
          TOW_ms := envZero.tow_update commonZero.TOW_ms 1 },
        { dataShort with
            cs := inpA.cs
            alias_detect := alias_detect_first dataShort.alias_detect
              (inpA.cs.c1.I : ℚ) (inpA.cs.c1.Q : ℚ)
            short_cycle := false },
        [Event.retune commonZero.carrier_freq commonZero.code_phase_rate 0]) ∧
      (tracker_gps_l2cm_update cfgZero envZero inpA commonZero
        dataShort).2.1.alias_detect.first_I = (inpA.cs.c1.I : ℚ) ∧
      (tracker_gps_l2cm_update cfgZero envZero inpA commonZero
        dataShort).2.1.alias_detect.first_Q = (inpA.cs.c1.Q : ℚ) ∧
      (tracker_gps_l2cm_update cfgZero envZero inpA commonZero
        dataShort).1.update_count = commonZero.update_count ∧
      (tracker_gps_l2cm_update cfgZero envZero inpA commonZero
        dataShort).1.cn0 = commonZero.cn0 ∧
      (tracker_gps_l2cm_update cfgZero envZero inpA commonZero
        dataShort).1.carrier_freq = commonZero.carrier_freq ∧
      (tracker_gps_l2cm_update cfgZero envZero inpA commonZero
        dataShort).1.code_phase_rate = commonZero.code_phase_rate ∧
      (tracker_gps_l2cm_update cfgZero envZero inpA commonZero
        dataShort).1.cn0_above_drop_thres_count =
        commonZero.cn0_above_drop_thres_count ∧
      (tracker_gps_l2cm_update cfgZero envZero inpA commonZero
        dataShort).1.cn0_below_use_thres_count =
        commonZero.cn0_below_use_thres_count ∧
      (tracker_gps_l2cm_update cfgZero envZero inpA commonZero
        dataShort).1.ld_opti_locked_count =
        commonZero.ld_opti_locked_count ∧
      (tracker_gps_l2cm_update cfgZero envZero inpA commonZero
        dataShort).1.ld_pess_unlocked_count =
        commonZero.ld_pess_unlocked_count ∧
      (tracker_gps_l2cm_update cfgZero envZero inpA commonZero
        dataShort).1.mode_change_count = commonZero.mode_change_count :=
  short_cycle_frame cfgZero envZero inpA commonZero dataShort rfl

/-- The LONG tail ends with a retune carrying the published carrier
frequency and code phase rate — the `aided_tl_update` results — and the
rollover parameter `int_ms - 1`. -/
theorem update_long_retune (cfg : Config) (env : Env) (c : CommonData)
    (d : TrackerData) :
    (tracker_gps_l2cm_update_long cfg env c d).2.2.getLast? =
        some (Event.retune
          (tracker_gps_l2cm_update_long cfg env c d).1.carrier_freq
          (tracker_gps_l2cm_update_long cfg env c d).1.code_phase_rate
          ((d.int_ms : ℤ) - 1)) ∧
      (tracker_gps_l2cm_update_long cfg env c d).1.carrier_freq =
        (env.aided_tl_update d.tl_state (revCorr3 d.cs)).carr_freq ∧
      (tracker_gps_l2cm_update_long cfg env c d).1.code_phase_rate =
        (env.aided_tl_update d.tl_state (revCorr3 d.cs)).code_freq +
          GPS_CA_CHIPPING_RATE := by
  refine ⟨?_, ?_, ?_⟩ <;>
    simp only [tracker_gps_l2cm_update_long, cn0_update_step_fields,
      lock_detect_step_fields, loop_filter_step_fields,
      alias_detect_step_fields, sync_step_fields, List.getLast?_concat]

/-- The LONG tail sets `update_count` once, to the wrapped sum with
`int_ms`, before any detector runs; nothing later changes it. -/
theorem update_long_update_count (cfg : Config) (env : Env)
    (c : CommonData) (d : TrackerData) :
    (tracker_gps_l2cm_update_long cfg env c d).1.update_count =
      (c.update_count + d.int_ms) % u32Mod := by
  simp only [tracker_gps_l2cm_update_long, cn0_update_step_fields,
    lock_detect_step_fields, loop_filter_step_fields,
    alias_detect_step_fields, sync_step_fields]

/-- C9 (amended): on every LONG call the final hardware retune carries the
newly computed carrier frequency and code phase rate, and `int_ms - 1` —
not `int_ms` — as its integration-length (rollover) parameter. -/
theorem long_final_retune (cfg : Config) (env : Env) (inp : Inputs)
    (c : CommonData) (d : TrackerData) (h : d.short_cycle = false) :
    (tracker_gps_l2cm_update cfg env inp c d).2.2.getLast? =
        some (Event.retune
          (tracker_gps_l2cm_update cfg env inp c d).1.carrier_freq
          (tracker_gps_l2cm_update cfg env inp c d).1.code_phase_rate
          ((d.int_ms : ℤ) - 1)) ∧
      (tracker_gps_l2cm_update cfg env inp c d).1.carrier_freq =
        (longFilteredTl env inp d).carr_freq ∧
      (tracker_gps_l2cm_update cfg env inp c d).1.code_phase_rate =
        (longFilteredTl env inp d).code_freq + GPS_CA_CHIPPING_RATE := by
  rw [update_long_dispatch cfg env inp c d h]
  simpa [longFilteredTl] using update_long_retune cfg env
    { c with
        sample_count := inp.sample_count
        code_phase_early := inp.code_phase_early
        carrier_phase := inp.carrier_phase
        TOW_ms := env.tow_update c.TOW_ms (d.int_ms - 1) }
    { d with cs := longCs inp d, short_cycle := true }

/-- C9 witness: the amended property at a concrete LONG call. -/
theorem long_final_retune_witness :
    (tracker_gps_l2cm_update cfgZero envZero inpB commonZero
          dataLong).2.2.getLast? =
        some (Event.retune
          (tracker_gps_l2cm_update cfgZero envZero inpB commonZero
            dataLong).1.carrier_freq
          (tracker_gps_l2cm_update cfgZero envZero inpB commonZero
            dataLong).1.code_phase_rate
          ((dataLong.int_ms : ℤ) - 1)) ∧
      (tracker_gps_l2cm_update cfgZero envZero inpB commonZero
        dataLong).1.carrier_freq =
        (longFilteredTl envZero inpB dataLong).carr_freq ∧
      (tracker_gps_l2cm_update cfgZero envZero inpB commonZero
        dataLong).1.code_phase_rate =
        (longFilteredTl envZero inpB dataLong).code_freq +
          GPS_CA_CHIPPING_RATE :=
  long_final_retune cfgZero envZero inpB commonZero dataLong rfl

/-- C9 counterexample: at a concrete LONG call with `int_ms = 20` the
final retune's integration-length parameter is 19, not `int_ms`. -/
theorem long_final_retune_counterexample :
    (tracker_gps_l2cm_update cfgZero envZero inpB commonZero
          dataLong).2.2.getLast? =
        some (Event.retune 0 1023000 19) ∧
      (19 : ℤ) ≠ (dataLong.int_ms : ℤ) := by
  constructor
  · rw [update_long_dispatch cfgZero envZero inpB commonZero dataLong rfl]
    simp only [tracker_gps_l2cm_update_long, cn0_update_step_fields,
      lock_detect_step_fields, loop_filter_step_fields,
      alias_detect_step_fields, sync_step_fields, cn0_est_result,
      lock_detect_result, alias_second_result, aliasThreshold]
    norm_num [envZero, dataLong, commonZero, cfgZero, tlZero, ldZero,
      cn0Zero, adZero, zeroCorr3, inpB, addCorr3, longCs,
      List.getLast?_concat, GPS_CA_CHIPPING_RATE]
  · decide

/-- C4: on a LONG call where the lock detector's `outp` goes true→false,
that same call signals an ambiguity reset and stamps
`ld_pess_unlocked_count` with the current `update_count`. -/
theorem pess_unlock_resets_ambiguity (cfg : Config) (env : Env)
    (inp : Inputs) (c : CommonData) (d : TrackerData)
    (h : d.short_cycle = false)
    (hwas : d.lock_detect.outp = true)
    (hnow : (longLockDetect env inp d).outp = false) :
    Event.ambiguityUnknown ∈ (tracker_gps_l2cm_update cfg env inp c d).2.2 ∧
      (tracker_gps_l2cm_update cfg env inp c d).1.ld_pess_unlocked_count =
        (tracker_gps_l2cm_update cfg env inp c d).1.update_count := by
  rw [update_long_dispatch cfg env inp c d h]
  simp only [longLockDetect, longCs] at hnow
  simp only [tracker_gps_l2cm_update_long, cn0_update_step_fields,
    lock_detect_step_fields, loop_filter_step_fields,
    alias_detect_step_fields, sync_step_fields, cn0_est_result,
    lock_detect_result, alias_second_result, aliasThreshold, longCs]
  simp [hwas, hnow]

/-- C4 witness: a concrete LONG call dropping pessimistic lock. -/
theorem pess_unlock_resets_ambiguity_witness :
    Event.ambiguityUnknown ∈
        (tracker_gps_l2cm_update cfgZero envDrop inpZero commonZero
          dataPess).2.2 ∧
      (tracker_gps_l2cm_update cfgZero envDrop inpZero commonZero
          dataPess).1.ld_pess_unlocked_count =
        (tracker_gps_l2cm_update cfgZero envDrop inpZero commonZero
          dataPess).1.update_count :=
  pess_unlock_resets_ambiguity cfgZero envDrop inpZero commonZero dataPess
    rfl rfl (by decide)

/-- C5: on a LONG call, a C/N0 estimate above the drop threshold stamps
`cn0_above_drop_thres_count` with the current `update_count`; an estimate
below the use threshold signals an ambiguity reset and stamps
`cn0_below_use_thres_count`, all within that call. -/
theorem cn0_threshold_actions (cfg : Config) (env : Env) (inp : Inputs)
    (c : CommonData) (d : TrackerData) (h : d.short_cycle = false) :
    (longCn0 env inp d > cfg.track_cn0_drop_thres →
        (tracker_gps_l2cm_update cfg env inp c
            d).1.cn0_above_drop_thres_count =
          (tracker_gps_l2cm_update cfg env inp c d).1.update_count) ∧
      (longCn0 env inp d < cfg.track_cn0_use_thres →
        Event.ambiguityUnknown ∈
            (tracker_gps_l2cm_update cfg env inp c d).2.2 ∧
          (tracker_gps_l2cm_update cfg env inp c
              d).1.cn0_below_use_thres_count =
            (tracker_gps_l2cm_update cfg env inp c d).1.update_count) := by
  rw [update_long_dispatch cfg env inp c d h]
  simp only [tracker_gps_l2cm_update_long, cn0_update_step_fields,
    lock_detect_step_fields, loop_filter_step_fields,
    alias_detect_step_fields, sync_step_fields, cn0_est_result,
    lock_detect_result, alias_second_result, aliasThreshold, longCn0,
    longCs]
  constructor
  · intro hc
    simp [hc]
  · intro hc
    simp [hc]

/-- C5 witness: a concrete LONG call whose 50 dBHz estimate is above the
drop threshold and below the use threshold. -/
theorem cn0_threshold_actions_witness :
    (tracker_gps_l2cm_update cfgThres envCn0 inpZero commonZero
        dataLong).1.cn0_above_drop_thres_count =
      (tracker_gps_l2cm_update cfgThres envCn0 inpZero commonZero
        dataLong).1.update_count ∧
    Event.ambiguityUnknown ∈
      (tracker_gps_l2cm_update cfgThres envCn0 inpZero commonZero
        dataLong).2.2 ∧
    (tracker_gps_l2cm_update cfgThres envCn0 inpZero commonZero
        dataLong).1.cn0_below_use_thres_count =
      (tracker_gps_l2cm_update cfgThres envCn0 inpZero commonZero
        dataLong).1.update_count := by
  have h := cn0_threshold_actions cfgThres envCn0 inpZero commonZero
    dataLong rfl
  refine ⟨h.1 ?_, h.2 ?_⟩
  · show longCn0 envCn0 inpZero dataLong > cfgThres.track_cn0_drop_thres
    norm_num [longCn0, longCs, envCn0, envZero, cfgThres]
  · show longCn0 envCn0 inpZero dataLong < cfgThres.track_cn0_use_thres
    norm_num [longCn0, longCs, envCn0, envZero, cfgThres]

/-- The integer threshold `250 / int_ms` of the source never exceeds the
exact ratio, so exceeding the exact ratio takes the alias branch. -/
theorem tdiv250_le_ratio (n : ℕ) :
    ((Int.tdiv 250 (n : ℤ) : ℤ) : ℚ) ≤ (250 : ℚ) / (n : ℚ) := by
  have h : Int.tdiv 250 (n : ℤ) = ((250 / n : ℕ) : ℤ) := rfl
  rw [h]
  exact_mod_cast Nat.cast_div_le (α := ℚ)

/-- C1: on a LONG call with alias detection enabled and at least
optimistic lock, an alias error beyond `250 / int_ms` Hz emits the
false-lock warning when `outp` is set, signals an ambiguity reset, stamps
`mode_change_count` with the current `update_count`, and shifts the loop
filter's carrier-frequency state (`carr_freq` and its filter output) by
exactly the computed error, bypassing the normal filter update. -/
theorem alias_feed_forward (cfg : Config) (env : Env) (inp : Inputs)
    (c : CommonData) (d : TrackerData)
    (h : d.short_cycle = false)
    (hen : cfg.use_alias_detection = true)
    (hlock : (longLockDetect env inp d).outp = true ∨
      (longLockDetect env inp d).outo = true)
    (herr : (250 : ℚ) / (d.int_ms : ℚ) < |longAliasErr env inp d|) :
    ((longLockDetect env inp d).outp = true →
        Event.logWarnFalsePhaseLock ∈
          (tracker_gps_l2cm_update cfg env inp c d).2.2) ∧
      Event.ambiguityUnknown ∈
        (tracker_gps_l2cm_update cfg env inp c d).2.2 ∧
      (tracker_gps_l2cm_update cfg env inp c d).1.mode_change_count =
        (tracker_gps_l2cm_update cfg env inp c d).1.update_count ∧
      (tracker_gps_l2cm_update cfg env inp c d).2.1.tl_state.carr_freq =
        (longFilteredTl env inp d).carr_freq + longAliasErr env inp d ∧
      (tracker_gps_l2cm_update cfg env inp c d).2.1.tl_state.carr_filt_y =
        (longFilteredTl env inp d).carr_freq + longAliasErr env inp d := by
  have hthr : aliasThreshold d < |longAliasErr env inp d| :=
    lt_of_le_of_lt (tdiv250_le_ratio d.int_ms) herr
  rw [update_long_dispatch cfg env inp c d h]
  simp only [longLockDetect, longCs] at hlock
  simp only [aliasThreshold, longAliasErr, longCs] at hthr
  simp only [tracker_gps_l2cm_update_long, cn0_update_step_fields,
    lock_detect_step_fields, loop_filter_step_fields,
    alias_detect_step_fields, sync_step_fields, cn0_est_result,
    lock_detect_result, alias_second_result, aliasThreshold,
    longFilteredTl, longLockDetect, longAliasErr, longCs]
  rcases hlock with h1 | h1 <;>
    simp [hen, h1, hthr]

/-- C1 witness: a concrete LONG call with pessimistic lock and a 13 Hz
alias error past the 12.5 Hz threshold. -/
theorem alias_feed_forward_witness :
    Event.logWarnFalsePhaseLock ∈
        (tracker_gps_l2cm_update cfgZero envAlias inpZero commonZero
          dataLong).2.2 ∧
      Event.ambiguityUnknown ∈
        (tracker_gps_l2cm_update cfgZero envAlias inpZero commonZero
          dataLong).2.2 ∧
      (tracker_gps_l2cm_update cfgZero envAlias inpZero commonZero
          dataLong).1.mode_change_count =
        (tracker_gps_l2cm_update cfgZero envAlias inpZero commonZero
          dataLong).1.update_count ∧
      (tracker_gps_l2cm_update cfgZero envAlias inpZero commonZero
          dataLong).2.1.tl_state.carr_freq =
        (longFilteredTl envAlias inpZero dataLong).carr_freq +
          longAliasErr envAlias inpZero dataLong ∧
      (tracker_gps_l2cm_update cfgZero envAlias inpZero commonZero
          dataLong).2.1.tl_state.carr_filt_y =
        (longFilteredTl envAlias inpZero dataLong).carr_freq +
          longAliasErr envAlias inpZero dataLong := by
  have w := alias_feed_forward cfgZero envAlias inpZero commonZero dataLong
    rfl rfl (Or.inl (by decide))
    (by norm_num [longAliasErr, longCs, envAlias, envZero, dataLong])
  exact ⟨w.1 (by decide), w.2.1, w.2.2.1, w.2.2.2.1, w.2.2.2.2⟩

/-- A successful `parse_loop_params` stores a `coherent_ms` equal to the
fixed stage-1 integration length. -/
theorem parse_loop_params_coherent (len : ℕ) (stored : List Char)
    (stage : LoopParams) (val : List Char)
    (h : (parse_loop_params len stored stage val).1 = true) :
    (parse_loop_params len stored stage val).2.2.coherent_ms =
      L2C_COHERENT_INTEGRATION_TIME_MS := by
  unfold parse_loop_params at h ⊢
  split at h
  next heq => exact absurd h (by simp)
  next tmp c8 k8 heq =>
    by_cases hc : tmp % 256 ≠ L2C_COHERENT_INTEGRATION_TIME_MS
    · simp [hc] at h
    · push_neg at hc
      simp [hc]

/-- No update call changes `int_ms`. -/
theorem update_int_ms (cfg : Config) (env : Env) (inp : Inputs)
    (c : CommonData) (d : TrackerData) :
    (tracker_gps_l2cm_update cfg env inp c d).2.1.int_ms = d.int_ms := by
  cases h : d.short_cycle with
  | true => rw [update_short_eq cfg env inp c d h]
  | false =>
    rw [update_long_dispatch cfg env inp c d h,
      (update_long_data_invariants cfg env _ _).2.2]

/-- C10: after a successful `parse_loop_params` and an init from the
stored parameters, `int_ms = 20`, so every division site of the update
call has a nonzero divisor; and no update call changes `int_ms`, so this
persists across the channel's lifetime. -/
theorem valid_init_nonzero_divisors (len : ℕ) (stored : List Char)
    (stage0 : LoopParams) (val : List Char) (env : Env)
    (ldp : LockDetectParams) (c : CommonData)
    (h : (parse_loop_params len stored stage0 val).1 = true) :
    (tracker_gps_l2cm_init env
        (parse_loop_params len stored stage0 val).2.2 ldp c).1.int_ms =
        20 ∧
      (∀ z ∈ update_divisors (tracker_gps_l2cm_init env
          (parse_loop_params len stored stage0 val).2.2 ldp c).1,
        z ≠ 0) ∧
      ∀ (cfg : Config) (env2 : Env) (inp : Inputs) (c2 : CommonData)
          (d : TrackerData),
        (tracker_gps_l2cm_update cfg env2 inp c2 d).2.1.int_ms =
          d.int_ms := by
  have h20 : (tracker_gps_l2cm_init env
      (parse_loop_params len stored stage0 val).2.2 ldp c).1.int_ms = 20 :=
    parse_loop_params_coherent len stored stage0 val h
  refine ⟨h20, ?_, fun cfg env2 inp c2 d => update_int_ms cfg env2 inp c2 d⟩
  intro z hz
  simp [update_divisors, h20] at hz
  rcases hz with h19 | h20' <;> omega

/-- C10 witness: the default loop-parameter string parses, the channel
initialises with `int_ms = 20`, and every division site is nonzero. -/
theorem valid_init_nonzero_divisors_witness :
    (tracker_gps_l2cm_init envZero
        (parse_loop_params 120 storedZero lpZero goodLoopStr).2.2 ldpZero
        commonZero).1.int_ms = 20 ∧
      (∀ z ∈ update_divisors (tracker_gps_l2cm_init envZero
          (parse_loop_params 120 storedZero lpZero goodLoopStr).2.2 ldpZero
          commonZero).1,
        z ≠ 0) ∧
      ∀ (cfg : Config) (env2 : Env) (inp : Inputs) (c2 : CommonData)
          (d : TrackerData),
        (tracker_gps_l2cm_update cfg env2 inp c2 d).2.1.int_ms =
          d.int_ms :=
  valid_init_nonzero_divisors 120 storedZero lpZero goodLoopStr envZero
    ldpZero commonZero (by decide)

/-- C7: both settings parsers leave the stored string and the backing
struct untouched on any failure — including a loop string whose
`coherent_ms` is not the fixed 20 ms stage-1 length — and on success they
return `true` and copy the input into the backing storage, which is
NUL-terminated at its capacity. -/
theorem settings_parsers_contract :
    (∀ (len : ℕ) (stored : List Char) (stage : LoopParams)
        (val : List Char),
      (parse_loop_params len stored stage val).1 = false →
        (parse_loop_params len stored stage val).2 = (stored, stage)) ∧
      (∀ (len : ℕ) (stored : List Char) (cur : LockDetectParams)
          (val : List Char),
        (parse_lock_detect_params len stored cur val).1 = false →
          (parse_lock_detect_params len stored cur val).2 = (stored, cur)) ∧
      (∀ (len : ℕ) (stored : List Char) (stage : LoopParams)
          (val : List Char) (m : ℕ),
        (scan_loop_params val).map (fun p => p.1 % 256) = some m →
          m ≠ L2C_COHERENT_INTEGRATION_TIME_MS →
            (parse_loop_params len stored stage val).1 = false) ∧
      (∀ (len : ℕ) (stored : List Char) (stage : LoopParams)
          (val : List Char),
        (parse_loop_params len stored stage val).1 = true →
          (parse_loop_params len stored stage val).2.1 =
            store_setting_string len stored val) ∧
      (∀ (len : ℕ) (stored : List Char) (cur : LockDetectParams)
          (val : List Char),
        (parse_lock_detect_params len stored cur val).1 = true →
          (parse_lock_detect_params len stored cur val).2.1 =
            store_setting_string len stored val) ∧
      ∀ (len : ℕ) (dst val : List Char),
        (store_setting_string (len + 1) dst val).get? len = some nulChar := by
  refine ⟨?_, ?_, ?_, ?_, ?_, ?_⟩
  · intro len stored stage val h
    unfold parse_loop_params at h ⊢
    split at h
    next heq => rfl
    next tmp c8 k8 heq =>
      by_cases hc : tmp % 256 ≠ L2C_COHERENT_INTEGRATION_TIME_MS
      · simp [hc]
      · simp [hc] at h
  · intro len stored cur val h
    unfold parse_lock_detect_params at h ⊢
    split at h
    next heq => rfl
    next p heq => exact absurd h (by simp)
  · intro len stored stage val m hm hne
    unfold parse_loop_params
    split
    next heq => rfl
    next tmp c8 k8 heq =>
      rw [heq] at hm
      simp only [Option.map_some'] at hm
      rw [Option.some_inj] at hm
      simp [hm, hne]
  · intro len stored stage val h
    unfold parse_loop_params at h ⊢
    split at h
    next heq => exact absurd h (by simp)
    next tmp c8 k8 heq =>
      by_cases hc : tmp % 256 ≠ L2C_COHERENT_INTEGRATION_TIME_MS
      · simp [hc] at h
      · simp [hc]
  · intro len stored cur val h
    unfold parse_lock_detect_params at h ⊢
    split at h
    next heq => exact absurd h (by simp)
    next p heq => rfl
  · intro len dst val
    have hlen : len < (strncpyList dst val (len + 1)).length := by
      simp only [strncpyList, List.length_append, List.length_take,
        List.length_replicate, List.length_drop]
      omega
    simp only [store_setting_string, Nat.succ_sub_one, if_pos
      (Nat.succ_pos len)]
    exact List.get?_set_eq_of_lt nulChar hlen

/-- C7 witness: concrete failing and succeeding inputs for both parsers,
and the NUL terminator at capacity. -/
theorem settings_parsers_contract_witness :
    (parse_loop_params 120 storedZero lpZero garbageStr).2 =
        (storedZero, lpZero) ∧
      (parse_lock_detect_params 24 storedZero ldpZero garbageStr).2 =
        (storedZero, ldpZero) ∧
      (parse_loop_params 120 storedZero lpZero badCoherentStr).1 = false ∧
      (parse_loop_params 120 storedZero lpZero goodLoopStr).2.1 =
        store_setting_string 120 storedZero goodLoopStr ∧
      (parse_lock_detect_params 24 storedZero ldpZero goodLockStr).2.1 =
        store_setting_string 24 storedZero goodLockStr ∧
      (store_setting_string (7 + 1) storedZero goodLockStr).get? 7 =
        some nulChar := by
  have h := settings_parsers_contract
  exact ⟨h.1 120 storedZero lpZero garbageStr (by decide),
    h.2.1 24 storedZero ldpZero garbageStr (by decide),
    h.2.2.1 120 storedZero lpZero badCoherentStr 10 (by decide) (by decide),
    h.2.2.2.1 120 storedZero lpZero goodLoopStr (by decide),
    h.2.2.2.2.1 24 storedZero ldpZero goodLockStr (by decide),
    h.2.2.2.2.2 7 storedZero goodLockStr⟩

/-- Any satellite index below the 32-bit word width passes the stubbed
all-ones capability mask. -/
theorem l2c_capable_of_lt (sat : ℕ) (h : sat < 32) :
    l2c_capable sat = true := by
  have h1 : (1 <<< sat) % u32Mod = 2 ^ sat := by
    rw [Nat.one_shiftLeft]
    exact Nat.mod_eq_of_lt
      (Nat.pow_lt_pow_right (by norm_num) h)
  unfold l2c_capable
  rw [h1]
  have h2 : u32Mod - 1 &&& 2 ^ sat = 2 ^ sat := by
    rw [Nat.land_comm]
    have hu : (u32Mod : ℕ) = 2 ^ 32 := by norm_num [u32Mod]
    rw [hu, Nat.and_pow_two_sub_one_eq_mod]
    exact Nat.mod_eq_of_lt
      (Nat.pow_lt_pow_right (by norm_num) h)
  rw [h2]
  simp [(Nat.two_pow_pos sat).ne']

/-- C8: on a capable satellite, a handover with exactly one channel whose
tracking and decode slots are both free seeds that channel with the source
Doppler rescaled by `GPS_L2_HZ / GPS_L1_HZ`; with no such channel, the
call only logs the exhaustion and initialises nothing. -/
theorem handover_allocation :
    (∀ (henv : HandoverEnv) (sat nap : ℕ) (cp : ℚ) (i0 : ℕ),
      l2c_capable sat = true →
      i0 < henv.nap_track_n_channels →
      (henv.tracker_channel_available i0 &&
        henv.decoder_channel_available i0) = true →
      (∀ j, j < henv.nap_track_n_channels →
        (henv.tracker_channel_available j &&
          henv.decoder_channel_available j) = true → j = i0) →
      do_l1ca_to_l2cm_handover henv sat nap cp =
        [HEvent.trackerChannelInit i0 sat henv.nap_timing_count cp
            (henv.source_carrier_freq * GPS_L2_HZ / GPS_L1_HZ)
            henv.source_cn0 henv.source_elevation]
          ++ (if henv.tracker_channel_init_ok then
                [HEvent.logInfoHandoverDone i0 nap]
              else [HEvent.logErrorTrackerInitFailed])
          ++ [HEvent.decoderChannelInit i0 sat]
          ++ (if henv.decoder_channel_init_ok then []
              else [HEvent.logErrorDecoderInitFailed])) ∧
      ∀ (henv : HandoverEnv) (sat nap : ℕ) (cp : ℚ),
        l2c_capable sat = true →
        (∀ j, j < henv.nap_track_n_channels →
          (henv.tracker_channel_available j &&
            henv.decoder_channel_available j) = false) →
        do_l1ca_to_l2cm_handover henv sat nap cp =
          [HEvent.logWarnNoFreeChannel] := by
  constructor
  · intro henv sat nap cp i0 hcap hlt hp huniq
    have hfind : find_free_channel henv = some i0 := by
      unfold find_free_channel
      cases hf : (List.range henv.nap_track_n_channels).find? (fun i =>
          henv.tracker_channel_available i &&
            henv.decoder_channel_available i) with
      | none =>
        exact absurd hp (by
          simpa using List.find?_eq_none.mp hf i0 (List.mem_range.mpr hlt))
      | some j =>
        have hpj := List.find?_some hf
        have hjm := List.mem_range.mp (List.mem_of_find?_eq_some hf)
        rw [huniq j hjm hpj]
    simp [do_l1ca_to_l2cm_handover, hcap, hfind]
  · intro henv sat nap cp hcap hnone
    have hfind : find_free_channel henv = none := by
      unfold find_free_channel
      refine List.find?_eq_none.mpr fun j hj => ?_
      simp [hnone j (List.mem_range.mp hj)]
    simp [do_l1ca_to_l2cm_handover, hcap, hfind]

/-- C8 witness: a concrete pool where only channel 3 is free, and one
where none is. -/
theorem handover_allocation_witness :
    do_l1ca_to_l2cm_handover henvOne 1 2 (1 / 2) =
        [HEvent.trackerChannelInit 3 1 1000 (1 / 2)
            (100 * GPS_L2_HZ / GPS_L1_HZ) 40 45,
          HEvent.logInfoHandoverDone 3 2,
          HEvent.decoderChannelInit 3 1] ∧
      do_l1ca_to_l2cm_handover henvNone 1 2 (1 / 2) =
        [HEvent.logWarnNoFreeChannel] := by
  have h := handover_allocation
  constructor
  · have e := h.1 henvOne 1 2 (1 / 2) 3 (l2c_capable_of_lt 1 (by norm_num))
      (by norm_num [henvOne]) (by decide)
      (fun j hj hb => by simpa [henvOne] using hb)
    rw [e]
    simp [henvOne]
  · exact h.2 henvNone 1 2 (1 / 2) (l2c_capable_of_lt 1 (by norm_num))
      (fun j hj => by simp [henvNone])

end L2CM
